import Mathlib

/-!
Shallow embedding of the mailbox view-state machine implemented in
`src/client/src/components/emailApp/emailApp.jsx` (the `EmailApp` React
component), together with proofs of the specified properties of the
query builder, pagination cursor stack, folder/query session, thread
collection, selection state and bulk mutation executor.

React `useState` slots become fields of `EmailApp.AppState`; each event
handler and each `useEffect` body becomes a pure state-transition
function.  JavaScript `null`/`undefined` for cursor tokens is `Option
String`; JS string truthiness (`if (s)`) is the test `s ≠ ""`; JS array
`push`/`pop`/`filter`/`includes`/`find` become the corresponding `List`
operations.  Date parsing (`new Date(...).getTime()` and
`setHours(23,59,59,999)`) is environment dependent, so the two
date-to-epoch conversions are abstracted as function parameters of the
query builder.
-/

namespace EmailApp

/-- One entry of the thread list (`threads` state).  Only the fields the
state machine inspects (`id`, `isStarred`) are modelled; the display
fields are irrelevant to every transition. -/
structure ThreadSummary where
  id : String
  isStarred : Bool
  deriving DecidableEq, Repr

/-- The structured filter form, `filterForm` state: fields `from`, `to`,
`subject`, `dateStart`, `dateEnd`, `folder`, `hasAttachment` of the
source's `filterDefaults` shape. -/
structure FilterForm where
  «from» : String
  «to» : String
  subject : String
  dateStart : String
  dateEnd : String
  folder : String
  hasAttachment : Bool
  deriving DecidableEq, Repr

/-- Source `filterDefaults`: all text fields empty,
`hasAttachment: false`. -/
def filterDefaults : FilterForm :=
  { «from» := "", «to» := "", subject := "", dateStart := "", dateEnd := ""
    folder := "", hasAttachment := false }

/-- Models JavaScript `String.prototype.trim()`: strip leading and
trailing whitespace.  (Defined by structural recursion on the character
list so that concrete instances evaluate; `String.trim` of the core
library is extensionally the same operation but does not reduce.) -/
def jsTrim (s : String) : String :=
  ⟨((s.data.dropWhile Char.isWhitespace).reverse.dropWhile Char.isWhitespace).reverse⟩

/-- Source `folderQueryMap`: folder key to provider query
fragment; `none` for any unknown key (JS: `folderQueryMap[k]` is
`undefined`). -/
def folderQueryMap : String → Option String
  | "inbox" => some "in:inbox"
  | "sent" => some "in:sent"
  | "drafts" => some "in:drafts"
  | "starred" => some "is:starred"
  | "archive" => some "in:archive"
  | "spam" => some "in:spam"
  | "deleted" => some "in:trash"
  | _ => none

/-- Source `buildSearchQuery`, translated line by line: a token
array is grown by conditional pushes (free text, `from:`, `to:`,
`subject:`, `after:`, `before:`, `has:attachment`, folder fragment) and
joined by single spaces, then trimmed.  `dateStartEpoch` abstracts
`Math.floor(new Date(d).getTime() / 1000)` and `dateEndEpoch` abstracts
`Math.floor(new Date(d).setHours(23, 59, 59, 999) / 1000)`. -/
def buildSearchQuery (dateStartEpoch dateEndEpoch : String → Int)
    (text : String) (f : FilterForm) : String :=
  let tokens : List String := []
  let trimmedText := jsTrim text
  let tokens := if trimmedText = "" then tokens else tokens ++ [trimmedText]
  let tokens := if f.«from» = "" then tokens else tokens ++ ["from:" ++ f.«from»]
  let tokens := if f.«to» = "" then tokens else tokens ++ ["to:" ++ f.«to»]
  let tokens := if f.subject = "" then tokens else tokens ++ ["subject:" ++ f.subject]
  let tokens := if f.dateStart = "" then tokens
    else tokens ++ ["after:" ++ toString (dateStartEpoch f.dateStart)]
  let tokens := if f.dateEnd = "" then tokens
    else tokens ++ ["before:" ++ toString (dateEndEpoch f.dateEnd)]
  let tokens := if f.hasAttachment then tokens ++ ["has:attachment"] else tokens
  let tokens := if f.folder = "" then tokens
    else match folderQueryMap f.folder with
      | some fragment => tokens ++ [fragment]
      | none => tokens
  jsTrim (String.intercalate " " tokens)

/-- Modelled from the spec's words, for comparison with the source's
`buildSearchQuery`: the token of each non-empty/true field in the fixed
order free text, `from:`, `to:`, `subject:`, `after:`, `before:`,
`has:attachment`, folder fragment; a field that is empty/false
contributes no token. -/
def claimTokens (dateStartEpoch dateEndEpoch : String → Int)
    (text : String) (f : FilterForm) : List String :=
  ([ if jsTrim text = "" then none else some (jsTrim text),
     if f.«from» = "" then none else some ("from:" ++ f.«from»),
     if f.«to» = "" then none else some ("to:" ++ f.«to»),
     if f.subject = "" then none else some ("subject:" ++ f.subject),
     if f.dateStart = "" then none
       else some ("after:" ++ toString (dateStartEpoch f.dateStart)),
     if f.dateEnd = "" then none
       else some ("before:" ++ toString (dateEndEpoch f.dateEnd)),
     if f.hasAttachment then some "has:attachment" else none,
     if f.folder = "" then none else folderQueryMap f.folder
   ] : List (Option String)).filterMap id

/-- Modelled from the spec's words: the tokens of the non-empty fields,
joined by single spaces, trimmed. -/
def buildQueryClaim (dateStartEpoch dateEndEpoch : String → Int)
    (text : String) (f : FilterForm) : String :=
  jsTrim (String.intercalate " " (claimTokens dateStartEpoch dateEndEpoch text f))

/-- The filter set of the spec's worked example:
`{from: "a@x.com", hasAttachment: true}`. -/
def exampleFilter : FilterForm :=
  { filterDefaults with «from» := "a@x.com", hasAttachment := true }

lemma skipOrPush (l : List String) (c : Prop) [Decidable c] (x : String) :
    (if c then l else l ++ [x]) = l ++ (if c then [] else [x]) := by
  split <;> simp

lemma pushOrSkip (l : List String) (c : Prop) [Decidable c] (x : String) :
    (if c then l ++ [x] else l) = l ++ (if c then [x] else []) := by
  split <;> simp

lemma skipOrMatch (l : List String) (c : Prop) [Decidable c] (o : Option String) :
    (if c then l
     else match o with
       | some fragment => l ++ [fragment]
       | none => l) = l ++ (if c then [] else o.toList) := by
  split
  · simp
  · cases o <;> simp

lemma filterMapIdCons (o : Option String) (l : List (Option String)) :
    (o :: l).filterMap id = o.toList ++ l.filterMap id := by
  cases o <;> simp

lemma toListIte (c : Prop) [Decidable c] (x : String) :
    (if c then none else some x).toList = if c then [] else [x] := by
  split <;> rfl

lemma toListIteT (c : Prop) [Decidable c] (x : String) :
    (if c then some x else (none : Option String)).toList = if c then [x] else [] := by
  split <;> rfl

lemma toListIteO (c : Prop) [Decidable c] (o : Option String) :
    (if c then none else o).toList = if c then [] else o.toList := by
  split <;> rfl

/-- C1: `buildSearchQuery` returns exactly the tokens of the
non-empty/true fields, in the fixed order free text, `from:`, `to:`,
`subject:`, `after:`, `before:`, `has:attachment`, folder fragment,
joined by single spaces and trimmed (stated as agreement with the
spec-worded `buildQueryClaim`); it is deterministic (two calls with
identical inputs give identical strings); and on the spec's example it
returns `"invoice from:a@x.com has:attachment"`. -/
theorem buildSearchQuery_tokens_order_and_example
    (se ee : String → Int) (text : String) (f : FilterForm) :
    buildSearchQuery se ee text f = buildQueryClaim se ee text f ∧
    buildSearchQuery se ee text f = buildSearchQuery se ee text f ∧
    buildSearchQuery se ee "invoice" exampleFilter =
      "invoice from:a@x.com has:attachment" := by
  refine ⟨?_, rfl, ?_⟩
  · unfold buildSearchQuery buildQueryClaim claimTokens
    simp only [skipOrPush, pushOrSkip, skipOrMatch]
    simp only [filterMapIdCons, toListIte, toListIteT, toListIteO, List.filterMap_nil,
      Option.toList_some, List.nil_append, List.append_nil, List.append_assoc]
  · rfl

/-- The `useState` slots of the `EmailApp` component that the mailbox
view-state machine reads and writes.  `selectedThread` is the open
thread (`null` is `none`); cursor tokens are `Option String` with JS
`null` as `none`. -/
structure AppState where
  activeFolder : String
  threads : List ThreadSummary
  threadsLoading : Bool
  threadsError : String
  selectedThread : Option ThreadSummary
  searchInput : String
  filterOpen : Bool
  filterForm : FilterForm
  activeQuery : String
  pageToken : Option String
  prevPageTokens : List (Option String)
  nextPageToken : Option String
  resultEstimate : Option Nat
  pageIndex : Nat
  selectedIds : List String
  refreshKey : Nat
  deriving DecidableEq, Repr

/-- The initial values of the `useState` hooks: first folder key
`"inbox"`, everything else empty/null/zero. -/
def initialAppState : AppState :=
  { activeFolder := "inbox", threads := [], threadsLoading := false
    threadsError := "", selectedThread := none, searchInput := ""
    filterOpen := false, filterForm := filterDefaults, activeQuery := ""
    pageToken := none, prevPageTokens := [], nextPageToken := none
    resultEstimate := none, pageIndex := 0, selectedIds := [], refreshKey := 0 }

/-- Models the JS expression `x || null` on a nullable string: `null`,
`undefined` and the empty string all collapse to `null`. -/
def jsOrNull : Option String → Option String
  | some str => if str = "" then none else some str
  | none => none

/-- Models JS truthiness of a nullable string (`if (tok)`): `null` and
`""` are falsy, any other string truthy. -/
def jsTruthyOpt : Option String → Bool
  | none => false
  | some str => ! (str == "")

/-- Source `resetPagination`: clears the page token, the
previous-token stack, the next token, the result estimate, the page
index and the multi-select set. -/
def resetPagination (s : AppState) : AppState :=
  { s with pageToken := none, prevPageTokens := [], nextPageToken := none
           resultEstimate := none, pageIndex := 0, selectedIds := [] }

/-- The `useEffect` with dependency `[activeFolder]` (runs whenever the
active folder changes): clears the open thread, the thread list, the
search input and the active query, and resets pagination. -/
def folderChangeEffect (s : AppState) : AppState :=
  resetPagination
    { s with selectedThread := none, threads := [], searchInput := ""
             activeQuery := "" }

/-- Source `handleFolderSelect`: no-op when the folder is
already active, otherwise clear the thread list, the thread-list error
and the open thread, and set the new folder. -/
def handleFolderSelect (folderKey : String) (s : AppState) : AppState :=
  if folderKey = s.activeFolder then s
  else { s with threads := [], threadsError := "", selectedThread := none
                activeFolder := folderKey }

/-- Operation `selectFolder` of the spec: `handleFolderSelect` together with the
`[activeFolder]` effect, which React runs exactly when the handler
changed `activeFolder` (i.e. when the folder differs from the current
one). -/
def selectFolder (folderKey : String) (s : AppState) : AppState :=
  if folderKey = s.activeFolder then handleFolderSelect folderKey s
  else folderChangeEffect (handleFolderSelect folderKey s)

/-- The `useEffect` with dependency `[threads]` (runs whenever the
thread list is replaced): re-derives the open thread — `null` when the
list is empty, the entry with the previously open id when still
present, otherwise the first entry. -/
def rederiveOpenThread (s : AppState) : AppState :=
  { s with selectedThread :=
      if s.threads = [] then none
      else
        match s.selectedThread with
        | some current =>
          match s.threads.find? (fun thread => thread.id == current.id) with
          | some existing => some existing
          | none => s.threads.head?
        | none => s.threads.head? }

/-- Source `handleSearchSubmit` (minus `event.preventDefault`):
commit `buildSearchQuery(searchInput)` as the active query and reset
pagination — with no comparison against the previous active query. -/
def handleSearchSubmit (dateStartEpoch dateEndEpoch : String → Int)
    (s : AppState) : AppState :=
  let combined := buildSearchQuery dateStartEpoch dateEndEpoch s.searchInput s.filterForm
  resetPagination { s with activeQuery := combined }

/-- Source `handleApplyFilters`: commit the built query, close
the filter panel and reset pagination — again without comparing against
the previous active query. -/
def handleApplyFilters (dateStartEpoch dateEndEpoch : String → Int)
    (s : AppState) : AppState :=
  let query := buildSearchQuery dateStartEpoch dateEndEpoch s.searchInput s.filterForm
  resetPagination { s with activeQuery := query, filterOpen := false }

/-- Source `goToNextPage`: guarded by truthiness of
`nextPageToken`; pushes the current page token on the stack, makes the
next token current and increments the page index. -/
def goToNextPage (s : AppState) : AppState :=
  if jsTruthyOpt s.nextPageToken then
    { s with prevPageTokens := s.prevPageTokens ++ [s.pageToken]
             pageToken := s.nextPageToken
             pageIndex := s.pageIndex + 1 }
  else s

/-- Source `goToPrevPage`: guarded by non-emptiness of
`prevPageTokens`; pops the last stack entry (JS `copy.pop() || null`)
into the current page token and decrements the page index, floored at
zero. -/
def goToPrevPage (s : AppState) : AppState :=
  if s.prevPageTokens = [] then s
  else
    { s with pageToken := jsOrNull (s.prevPageTokens.getLast?.getD none)
             prevPageTokens := s.prevPageTokens.dropLast
             pageIndex := max (s.pageIndex - 1) 0 }

/-- Source `handleThreadSelect`: checking a thread appends its
id to `selectedIds` unless already present; unchecking filters out
every occurrence of the id. -/
def handleThreadSelect (threadId : String) (checked : Bool) (s : AppState) : AppState :=
  { s with selectedIds :=
      if checked then
        if s.selectedIds.contains threadId then s.selectedIds
        else s.selectedIds ++ [threadId]
      else s.selectedIds.filter (fun i => ¬ i = threadId) }

/-- Source `allSelected`: the thread list is non-empty and the
selection has the same length. -/
def allSelected (s : AppState) : Bool :=
  decide (s.threads.length > 0) && (s.selectedIds.length == s.threads.length)

/-- Source `handleToggleSelectAll`: no-op on an empty thread
list; clears the selection when `allSelected`, otherwise selects the
ids of all loaded threads. -/
def handleToggleSelectAll (s : AppState) : AppState :=
  if s.threads.length = 0 then s
  else if allSelected s then { s with selectedIds := [] }
  else { s with selectedIds := s.threads.map ThreadSummary.id }

/-- Source `availableTargets`: the multi-select set when
non-empty, else the single open thread's id, else no targets. -/
def availableTargets (s : AppState) : List String :=
  if s.selectedIds.length > 0 then s.selectedIds
  else
    match s.selectedThread with
    | some thread => [thread.id]
    | none => []

/-- The state updates of `handleBulkAction` for `archive`/`delete` after
a successful remote call (the `else` branch of the action dispatch):
remove the targets from the thread list and from `selectedIds`, and
clear the open thread when it is among the targets. -/
def handleBulkRemove (targets : List String) (s : AppState) : AppState :=
  { s with threads := s.threads.filter (fun thread => ¬ targets.contains thread.id)
           selectedIds := s.selectedIds.filter (fun i => ¬ targets.contains i)
           selectedThread :=
             match s.selectedThread with
             | some current =>
               if targets.contains current.id then none else some current
             | none => none }

/-- A successful bulk `archive`/`delete` as observed after React settles:
the guard `!targets.length` short-circuits (the mailbox is assumed
present in this model), then `handleBulkRemove` runs, and the
`[threads]` effect re-derives the open thread because the thread list
was replaced. -/
def bulkRemoveCompleted (targets : List String) (s : AppState) : AppState :=
  if targets = [] then s
  else rederiveOpenThread (handleBulkRemove targets s)

/-- The outcome a thread-page fetch resolves with: the success payload
(`data.messages`, `data.nextPageToken`, `data.resultSizeEstimate`) or a
failure message (`err.message`, possibly empty). -/
inductive FetchResult where
  | success (msgs : List ThreadSummary) (nextTok : Option String) (est : Option Nat)
  | failure (msg : String)
  deriving DecidableEq, Repr

/-- The completion branch of `loadFolderMessages` for a fetch that was
not superseded, followed by the `[threads]` effect: on success the
thread list is replaced (hydration only adds display fields, so
id-level content is `msgs` itself), the selection is cleared and the
next-page token (`data.nextPageToken || null`) and result estimate are
stored; on failure the thread list empties and the error slot gets
`err.message || "Unable to load messages."`.  Both paths end with the
`finally` clearing the loading flag and the effect re-deriving the open
thread. -/
def applyFetchResult (r : FetchResult) (s : AppState) : AppState :=
  match r with
  | .success msgs nextTok est =>
    rederiveOpenThread
      { s with threads := msgs, selectedIds := []
               nextPageToken := jsOrNull nextTok
               resultEstimate := est
               threadsLoading := false }
  | .failure msg =>
    rederiveOpenThread
      { s with threads := []
               threadsError := if msg = "" then "Unable to load messages." else msg
               threadsLoading := false }

/-- A session together with the generation counter that models the
`ignore` closure flags of the `loadFolderMessages` effect: React runs
the cleanup of the superseded effect (setting its `ignore` to `true`)
before the next effect body, so a fetch's completion mutates state
exactly when no newer fetch has been dispatched — i.e. when its
generation is still the latest. -/
structure FetchSession where
  app : AppState
  generation : Nat
  deriving DecidableEq, Repr

/-- Dispatch of the `loadFolderMessages` effect body: the synchronous
prefix sets the loading flag and clears the error slot, and the fetch
is tagged with a fresh generation. -/
def dispatchFetch (fs : FetchSession) : FetchSession :=
  { app := { fs.app with threadsLoading := true, threadsError := "" }
    generation := fs.generation + 1 }

/-- Arrival of the response of the fetch tagged `gen`: all state
updates are guarded by the `ignore` flag, so they apply exactly when
`gen` is still the latest generation; a superseded response changes
nothing. -/
def completeFetch (gen : Nat) (r : FetchResult) (fs : FetchSession) : FetchSession :=
  if gen = fs.generation then { fs with app := applyFetchResult r fs.app }
  else fs

lemma completeFetch_generation (gen : Nat) (r : FetchResult) (fs : FetchSession) :
    (completeFetch gen r fs).generation = fs.generation := by
  unfold completeFetch; split <;> rfl

lemma completeFetch_stale (gen : Nat) (r : FetchResult) (fs : FetchSession)
    (h : gen ≠ fs.generation) : completeFetch gen r fs = fs := by
  unfold completeFetch; exact if_neg h

/-- C2: a thread-page fetch A that was superseded by a newer dispatch B
before resolving is discarded on arrival: completing A changes nothing
(thread collection, loading flag, error slot, pagination state all keep
the value they had), whether A arrives before or after B's own
completion; so after both complete, the session is exactly the one
produced by B's completion (or the still-pending dispatched state). -/
theorem stale_fetch_response_discarded (fs : FetchSession) (rA rB : FetchResult) :
    completeFetch (dispatchFetch fs).generation rA (dispatchFetch (dispatchFetch fs))
      = dispatchFetch (dispatchFetch fs) ∧
    completeFetch (dispatchFetch fs).generation rA
        (completeFetch (dispatchFetch (dispatchFetch fs)).generation rB
          (dispatchFetch (dispatchFetch fs)))
      = completeFetch (dispatchFetch (dispatchFetch fs)).generation rB
          (dispatchFetch (dispatchFetch fs)) := by
  have hne : (dispatchFetch fs).generation ≠ (dispatchFetch (dispatchFetch fs)).generation := by
    simp only [dispatchFetch]
    omega
  refine ⟨completeFetch_stale _ _ _ hne, completeFetch_stale _ _ _ ?_⟩
  rw [completeFetch_generation]
  exact hne

/-- C4: selecting a folder different from the active one resets the
whole session before any fetch completes — empty active query, initial
cursor state (null tokens, empty history, page index 0, no estimate),
empty selection and no open thread — while selecting the already-active
folder changes nothing. -/
theorem selectFolder_resets_session (f : String) (s : AppState) :
    (f ≠ s.activeFolder →
      (selectFolder f s).activeQuery = "" ∧
      (selectFolder f s).pageToken = none ∧
      (selectFolder f s).prevPageTokens = [] ∧
      (selectFolder f s).nextPageToken = none ∧
      (selectFolder f s).resultEstimate = none ∧
      (selectFolder f s).pageIndex = 0 ∧
      (selectFolder f s).selectedIds = [] ∧
      (selectFolder f s).selectedThread = none ∧
      (selectFolder f s).activeFolder = f) ∧
    (f = s.activeFolder → selectFolder f s = s) := by
  constructor
  · intro h
    simp [selectFolder, handleFolderSelect, folderChangeEffect, resetPagination, h]
  · intro h
    simp [selectFolder, handleFolderSelect, h]

/-- Witness for C4 at a concrete input: selecting `"sent"` from the
initial (inbox) state resets the session, and re-selecting `"inbox"`
is a no-op. -/
theorem selectFolder_resets_session_witness :
    (selectFolder "sent" initialAppState).activeQuery = "" ∧
    (selectFolder "sent" initialAppState).selectedThread = none ∧
    (selectFolder "sent" initialAppState).activeFolder = "sent" ∧
    selectFolder "inbox" initialAppState = initialAppState := by
  have h := selectFolder_resets_session "sent" initialAppState
  have h2 := selectFolder_resets_session "inbox" initialAppState
  have hne : "sent" ≠ initialAppState.activeFolder := by decide
  obtain ⟨hq, -, -, -, -, -, -, hopen, hfold⟩ := h.1 hne
  exact ⟨hq, hopen, hfold, h2.2 (by decide)⟩

lemma jsOrNull_ne_empty (x : Option String) : jsOrNull x ≠ some "" := by
  unfold jsOrNull
  rcases x with _ | str
  · simp
  · split <;> simp_all

lemma jsOrNull_eq_self (x : Option String) (h : x ≠ some "") : jsOrNull x = x := by
  rcases x with _ | str
  · rfl
  · simp only [jsOrNull]
    rw [if_neg]
    intro he
    exact h (by rw [he])

/-- The cursor states reachable from a pagination reset by page
navigation and fetch completions — the only operations of the source
that touch `pageToken`, `prevPageTokens` and `nextPageToken`. -/
inductive CursorReachable : AppState → Prop where
  | init (s : AppState) : CursorReachable (resetPagination s)
  | next {s : AppState} : CursorReachable s → CursorReachable (goToNextPage s)
  | prev {s : AppState} : CursorReachable s → CursorReachable (goToPrevPage s)
  | fetched {s : AppState} (r : FetchResult) :
      CursorReachable s → CursorReachable (applyFetchResult r s)

/-- In every reachable cursor state, neither the current page token nor
the next-page token is the empty string (the source collapses `""` to
`null` with `|| null` before storing a token). -/
lemma cursorReachable_no_empty_token {s : AppState} (h : CursorReachable s) :
    s.pageToken ≠ some "" ∧ s.nextPageToken ≠ some "" := by
  induction h with
  | init s => simp [resetPagination]
  | next h ih =>
    unfold goToNextPage
    split
    · exact ⟨ih.2, ih.2⟩
    · exact ih
  | prev h ih =>
    unfold goToPrevPage
    split
    · exact ih
    · exact ⟨jsOrNull_ne_empty _, ih.2⟩
  | fetched r h ih =>
    unfold applyFetchResult
    rcases r with ⟨msgs, nextTok, est⟩ | msg
    · exact ⟨ih.1, jsOrNull_ne_empty _⟩
    · exact ih

/-- C3: in every reachable cursor state with a next page available,
a retreat immediately after the advance restores the current page
token, the history stack and the page index that held before the
advance; and whenever the history is empty (in particular in the
reset/initial state), a retreat changes nothing at all. -/
theorem cursor_retreat_undoes_advance (s : AppState) :
    (∀ t : String, CursorReachable s → s.nextPageToken = some t →
      (goToPrevPage (goToNextPage s)).pageToken = s.pageToken ∧
      (goToPrevPage (goToNextPage s)).prevPageTokens = s.prevPageTokens ∧
      (goToPrevPage (goToNextPage s)).pageIndex = s.pageIndex) ∧
    (s.prevPageTokens = [] → goToPrevPage s = s) := by
  constructor
  · intro t hreach hnext
    have hinv := cursorReachable_no_empty_token hreach
    have ht : ¬ t = "" := by
      intro he
      exact hinv.2 (by rw [hnext, he])
    have htruthy : jsTruthyOpt s.nextPageToken = true := by
      rw [hnext]
      simpa [jsTruthyOpt] using ht
    unfold goToNextPage
    rw [if_pos htruthy]
    unfold goToPrevPage
    rw [if_neg (by simp)]
    refine ⟨?_, by simp, by simp⟩
    simp only [List.getLast?_concat, Option.getD_some, List.dropLast_concat]
    exact jsOrNull_eq_self _ hinv.1
  · intro h
    unfold goToPrevPage
    rw [if_pos h]

/-- A concrete reachable cursor state for the C3 witness: a reset
followed by a successful fetch that stored next-page token `"tok"`. -/
def cursorWitnessState : AppState :=
  applyFetchResult (FetchResult.success [] (some "tok") none)
    (resetPagination initialAppState)

/-- Witness for C3 at a concrete input: from the reachable state with
next token `"tok"`, advance-then-retreat restores the null current
token, the empty history and page index 0, and a retreat on the empty
history is a no-op. -/
theorem cursor_retreat_undoes_advance_witness :
    (goToPrevPage (goToNextPage cursorWitnessState)).pageToken = none ∧
    (goToPrevPage (goToNextPage cursorWitnessState)).prevPageTokens = [] ∧
    (goToPrevPage (goToNextPage cursorWitnessState)).pageIndex = 0 ∧
    goToPrevPage cursorWitnessState = cursorWitnessState := by
  have hreach : CursorReachable cursorWitnessState :=
    CursorReachable.fetched (FetchResult.success [] (some "tok") none)
      (CursorReachable.init initialAppState)
  have h := cursor_retreat_undoes_advance cursorWitnessState
  have h1 := h.1 "tok" hreach (by decide)
  exact ⟨h1.1.trans (by decide), h1.2.1.trans (by decide), h1.2.2.trans (by decide),
    h.2 (by decide)⟩

/-- A concrete 3-thread collection with 2 threads selected (including
the open one), for exercising a bulk delete. -/
def bulkScenarioState : AppState :=
  { initialAppState with
      threads := [⟨"t1", false⟩, ⟨"t2", false⟩, ⟨"t3", false⟩]
      selectedIds := ["t1", "t2"]
      selectedThread := some ⟨"t1", false⟩ }

/-- Counterexample to C5 as stated: after the bulk delete of the 2
selected threads (including the open one) out of 3, the collection does
have exactly 1 thread and the selection is empty, but the open thread
is NOT null — the `[threads]` effect re-derives it to the surviving
thread because the thread list changed and the open thread had been
cleared. -/
theorem bulkDelete_open_thread_not_null :
    (bulkRemoveCompleted (availableTargets bulkScenarioState) bulkScenarioState).threads.length
        = 1 ∧
    (bulkRemoveCompleted (availableTargets bulkScenarioState) bulkScenarioState).selectedIds
        = [] ∧
    (bulkRemoveCompleted (availableTargets bulkScenarioState) bulkScenarioState).selectedThread
        ≠ none := by
  refine ⟨by decide, by decide, by decide⟩

/-- C5 (amended): for a collection of 3 distinct threads with the first
2 selected (the first being open), a successful bulk delete of the
targets leaves exactly the 1 non-target thread and an empty selection —
but the open thread is then re-derived by the `[threads]` effect to the
surviving (first remaining) thread rather than staying null. -/
theorem bulkDelete_removes_targets_rederives_open
    (a b c : ThreadSummary) (s : AppState)
    (hac : c.id ≠ a.id) (hbc : c.id ≠ b.id)
    (hthreads : s.threads = [a, b, c])
    (hsel : s.selectedIds = [a.id, b.id])
    (hopen : s.selectedThread = some a) :
    (bulkRemoveCompleted (availableTargets s) s).threads = [c] ∧
    (bulkRemoveCompleted (availableTargets s) s).selectedIds = [] ∧
    (bulkRemoveCompleted (availableTargets s) s).selectedThread = some c := by
  have htargets : availableTargets s = [a.id, b.id] := by
    unfold availableTargets
    rw [hsel]
    rfl
  rw [htargets]
  unfold bulkRemoveCompleted
  rw [if_neg (by simp)]
  unfold handleBulkRemove rederiveOpenThread
  simp only [hthreads, hsel, hopen, List.filter_cons, List.contains_cons,
    List.contains_nil, beq_iff_eq, Bool.or_false, decide_not]
  simp [hac, hbc]

/-- Witness for the amended C5 at the concrete 3-thread scenario. -/
theorem bulkDelete_removes_targets_rederives_open_witness :
    (bulkRemoveCompleted (availableTargets bulkScenarioState) bulkScenarioState).threads
        = [⟨"t3", false⟩] ∧
    (bulkRemoveCompleted (availableTargets bulkScenarioState) bulkScenarioState).selectedIds
        = [] ∧
    (bulkRemoveCompleted (availableTargets bulkScenarioState) bulkScenarioState).selectedThread
        = some ⟨"t3", false⟩ :=
  bulkDelete_removes_targets_rederives_open ⟨"t1", false⟩ ⟨"t2", false⟩ ⟨"t3", false⟩
    bulkScenarioState (by decide) (by decide) (by decide) (by decide) (by decide)

/-- A fixed date-to-epoch conversion, standing in for the environment's
date parser in concrete evaluations (no date filter is set in them, so
its value is never consulted). -/
def zeroEpoch : String → Int := fun _ => 0

/-- The dependency tuple of the `loadFolderMessages` effect
(`[mailbox, activeFolder, activeQuery, pageToken, refreshKey]`, minus
the constant mailbox): a new thread-page fetch is dispatched exactly
when this tuple changes. -/
def fetchDeps (s : AppState) : String × String × Option String × Nat :=
  (s.activeFolder, s.activeQuery, s.pageToken, s.refreshKey)

/-- A session sitting on page 3 of the committed query `"x"`, with one
thread selected: re-submitting the same query should be a no-op per the
spec. -/
def sameQueryState : AppState :=
  { initialAppState with
      searchInput := "x"
      activeQuery := "x"
      threads := [⟨"a", false⟩, ⟨"b", false⟩]
      selectedThread := some ⟨"a", false⟩
      selectedIds := ["a"]
      pageIndex := 2
      pageToken := some "tok2"
      prevPageTokens := [none, some "tok1"] }

/-- Counterexample to C6 as stated: in `sameQueryState` the built query
equals the active query, yet submitting the search is not a no-op —
the selection is cleared, the page index and cursor stack are reset,
and the fetch-effect dependency tuple changes (the page token reverts
to null), so a new fetch is triggered. -/
theorem commitQuery_same_query_not_noop :
    buildSearchQuery zeroEpoch zeroEpoch sameQueryState.searchInput sameQueryState.filterForm
      = sameQueryState.activeQuery ∧
    (handleSearchSubmit zeroEpoch zeroEpoch sameQueryState).selectedIds
      ≠ sameQueryState.selectedIds ∧
    (handleSearchSubmit zeroEpoch zeroEpoch sameQueryState).pageIndex
      ≠ sameQueryState.pageIndex ∧
    (handleSearchSubmit zeroEpoch zeroEpoch sameQueryState).prevPageTokens
      ≠ sameQueryState.prevPageTokens ∧
    fetchDeps (handleSearchSubmit zeroEpoch zeroEpoch sameQueryState)
      ≠ fetchDeps sameQueryState := by
  refine ⟨by decide, by decide, by decide, by decide, by decide⟩

/-- C6 (amended): committing a query via `handleSearchSubmit` or
`handleApplyFilters` never compares against the active query: it
unconditionally sets the active query to the built string and resets
the cursor state, page index and selection (the thread list, open
thread and folder are untouched by the handler itself); a new fetch is
triggered exactly when the dependency tuple changed, which happens
whenever the page token was non-null. -/
theorem commitQuery_always_resets (se ee : String → Int) (s : AppState) :
    (handleSearchSubmit se ee s).activeQuery
        = buildSearchQuery se ee s.searchInput s.filterForm ∧
    (handleSearchSubmit se ee s).pageToken = none ∧
    (handleSearchSubmit se ee s).prevPageTokens = [] ∧
    (handleSearchSubmit se ee s).nextPageToken = none ∧
    (handleSearchSubmit se ee s).resultEstimate = none ∧
    (handleSearchSubmit se ee s).pageIndex = 0 ∧
    (handleSearchSubmit se ee s).selectedIds = [] ∧
    (handleSearchSubmit se ee s).threads = s.threads ∧
    (handleSearchSubmit se ee s).selectedThread = s.selectedThread ∧
    (handleSearchSubmit se ee s).activeFolder = s.activeFolder ∧
    (handleApplyFilters se ee s).activeQuery
        = buildSearchQuery se ee s.searchInput s.filterForm ∧
    (handleApplyFilters se ee s).selectedIds = [] ∧
    (handleApplyFilters se ee s).pageIndex = 0 ∧
    (handleApplyFilters se ee s).pageToken = none :=
  ⟨rfl, rfl, rfl, rfl, rfl, rfl, rfl, rfl, rfl, rfl, rfl, rfl, rfl, rfl⟩

/-- C7: on a thread-collection replacement, the `[threads]` effect
keeps the open thread when its id is still present in the new list,
re-derives it to the first element when the id is absent, and sets it
to null when the new list is empty. -/
theorem openThread_rederivation (s : AppState) :
    (s.threads = [] → (rederiveOpenThread s).selectedThread = none) ∧
    (∀ current, s.selectedThread = some current →
      (∃ u ∈ s.threads, u.id = current.id) →
      ∃ u, (rederiveOpenThread s).selectedThread = some u ∧
        u ∈ s.threads ∧ u.id = current.id) ∧
    (∀ current, s.selectedThread = some current →
      (∀ u ∈ s.threads, u.id ≠ current.id) →
      (rederiveOpenThread s).selectedThread = s.threads.head?) ∧
    (s.selectedThread = none → (rederiveOpenThread s).selectedThread = s.threads.head?) := by
  refine ⟨?_, ?_, ?_, ?_⟩
  · intro h
    simp [rederiveOpenThread, h]
  · intro current hcur ⟨u, hu, hid⟩
    have hne : s.threads ≠ [] := by
      intro h
      rw [h] at hu
      exact absurd hu (List.not_mem_nil u)
    have hsome : (s.threads.find? (fun thread => thread.id == current.id)).isSome := by
      rw [List.find?_isSome]
      exact ⟨u, hu, by simpa using hid⟩
    obtain ⟨v, hv⟩ := Option.isSome_iff_exists.mp hsome
    refine ⟨v, ?_, List.mem_of_find?_eq_some hv, by simpa using List.find?_some hv⟩
    simp [rederiveOpenThread, hne, hcur, hv]
  · intro current hcur habsent
    have hnone : s.threads.find? (fun thread => thread.id == current.id) = none := by
      rw [List.find?_eq_none]
      intro u hu
      simpa using habsent u hu
    rcases he : s.threads with _ | ⟨hd, tl⟩
    · simp [rederiveOpenThread, he]
    · rw [← he]
      have hne : s.threads ≠ [] := by rw [he]; simp
      simp [rederiveOpenThread, hne, hcur, hnone]
  · intro h
    rcases he : s.threads with _ | ⟨hd, tl⟩
    · simp [rederiveOpenThread, he]
    · rw [← he]
      have hne : s.threads ≠ [] := by rw [he]; simp
      simp [rederiveOpenThread, hne, h]

/-- Witness for C7 at concrete inputs: replacing the collection with
`[⟨"b",…⟩]` while thread `"a"` was open re-derives the open thread to
the first element `⟨"b",…⟩`; an empty replacement yields null. -/
theorem openThread_rederivation_witness :
    (rederiveOpenThread
        { initialAppState with
            threads := [⟨"b", false⟩]
            selectedThread := some ⟨"a", false⟩ }).selectedThread = some ⟨"b", false⟩ ∧
    (rederiveOpenThread
        { initialAppState with selectedThread := some ⟨"a", false⟩ }).selectedThread
      = none := by
  constructor
  · have h := (openThread_rederivation
      { initialAppState with
          threads := [⟨"b", false⟩]
          selectedThread := some ⟨"a", false⟩ }).2.2.1 ⟨"a", false⟩ rfl (by decide)
    exact h.trans (by decide)
  · exact (openThread_rederivation
      { initialAppState with selectedThread := some ⟨"a", false⟩ }).1 rfl

lemma toggleSelectAll_of_nil (s : AppState) (hth : s.threads = []) :
    handleToggleSelectAll s = s := by
  unfold handleToggleSelectAll
  rw [if_pos (by simp [hth])]

lemma toggleSelectAll_selects_all (s : AppState) (hth : s.threads ≠ [])
    (h : s.selectedIds.length ≠ s.threads.length) :
    handleToggleSelectAll s = { s with selectedIds := s.threads.map ThreadSummary.id } := by
  have hlen : s.threads.length ≠ 0 := by simpa [List.length_eq_zero] using hth
  have hA : allSelected s = false := by
    unfold allSelected
    have hb : (s.selectedIds.length == s.threads.length) = false := by simpa using h
    rw [hb, Bool.and_false]
  unfold handleToggleSelectAll
  rw [if_neg hlen]
  simp [hA]

lemma toggleSelectAll_clears (s : AppState) (hth : s.threads ≠ [])
    (h : s.selectedIds.length = s.threads.length) :
    handleToggleSelectAll s = { s with selectedIds := [] } := by
  have hlen : s.threads.length ≠ 0 := by simpa [List.length_eq_zero] using hth
  have hA : allSelected s = true := by
    unfold allSelected
    have hb : (s.selectedIds.length == s.threads.length) = true := by simpa using h
    have hp : decide (s.threads.length > 0) = true := by
      simp [Nat.pos_of_ne_zero hlen]
    rw [hb, hp, Bool.and_self]
  unfold handleToggleSelectAll
  rw [if_neg hlen]
  simp [hA]

/-- A 2-thread collection with a partial (1-thread) selection: the
starting point on which the double toggle fails to restore the
original selection. -/
def partialSelectState : AppState :=
  { initialAppState with
      threads := [⟨"a", false⟩, ⟨"b", false⟩]
      selectedIds := ["a"] }

/-- Counterexample to C8 as stated: starting from a partial selection
(`["a"]` out of threads `a`, `b`), the first `toggleSelectAll` selects
all (`["a","b"]`) and the second clears the selection, so two calls do
not restore the original selection. -/
theorem toggleSelectAll_twice_not_identity :
    (handleToggleSelectAll (handleToggleSelectAll partialSelectState)).selectedIds
      ≠ partialSelectState.selectedIds := by decide

/-- C8 (amended): two consecutive `toggleSelectAll` calls restore the
original `selectedIds` exactly when the starting selection is empty,
or is precisely the full id list of the collection, or the collection
is empty (then both calls are no-ops); in every other state the pair
ends with an empty selection when the starting selection's length
differs from the thread count (in particular for every proper partial
selection), and with the full id list when the lengths coincide but
the lists differ. -/
theorem toggleSelectAll_pair_restores (s : AppState) :
    ((handleToggleSelectAll (handleToggleSelectAll s)).selectedIds = s.selectedIds ↔
      (s.selectedIds = [] ∨ s.selectedIds = s.threads.map ThreadSummary.id ∨
        s.threads = [])) ∧
    (s.threads ≠ [] → s.selectedIds.length ≠ s.threads.length →
      (handleToggleSelectAll (handleToggleSelectAll s)).selectedIds = []) ∧
    (s.threads ≠ [] → s.selectedIds.length = s.threads.length →
      (handleToggleSelectAll (handleToggleSelectAll s)).selectedIds
        = s.threads.map ThreadSummary.id) := by
  have hlen0 : ∀ hth : s.threads ≠ [], s.threads.length ≠ 0 := fun hth => by
    simpa [List.length_eq_zero] using hth
  have hpair_ne : ∀ hth : s.threads ≠ [], s.selectedIds.length ≠ s.threads.length →
      (handleToggleSelectAll (handleToggleSelectAll s)).selectedIds = [] := by
    intro hth hne
    rw [toggleSelectAll_selects_all s hth hne,
      toggleSelectAll_clears { s with selectedIds := s.threads.map ThreadSummary.id }
        hth (by simp)]
  have hpair_eq : ∀ hth : s.threads ≠ [], s.selectedIds.length = s.threads.length →
      (handleToggleSelectAll (handleToggleSelectAll s)).selectedIds
        = s.threads.map ThreadSummary.id := by
    intro hth heq
    rw [toggleSelectAll_clears s hth heq,
      toggleSelectAll_selects_all { s with selectedIds := [] } hth
        (by simpa using (hlen0 hth).symm)]
  refine ⟨⟨?_, ?_⟩, hpair_ne, hpair_eq⟩
  · intro hres
    by_cases hth : s.threads = []
    · exact Or.inr (Or.inr hth)
    · by_cases hq : s.selectedIds.length = s.threads.length
      · refine Or.inr (Or.inl ?_)
        rw [← hres]
        exact hpair_eq hth hq
      · refine Or.inl ?_
        rw [← hres]
        exact hpair_ne hth hq
  · rintro (h | h | h)
    · by_cases hth : s.threads = []
      · rw [toggleSelectAll_of_nil s hth, toggleSelectAll_of_nil s hth]
      · have hne : s.selectedIds.length ≠ s.threads.length := by
          rw [h]
          simpa using (hlen0 hth).symm
        rw [hpair_ne hth hne, h]
    · by_cases hth : s.threads = []
      · rw [toggleSelectAll_of_nil s hth, toggleSelectAll_of_nil s hth]
      · have heq : s.selectedIds.length = s.threads.length := by
          rw [h, List.length_map]
        rw [hpair_eq hth heq, h]
    · rw [toggleSelectAll_of_nil s h, toggleSelectAll_of_nil s h]

/-- Witness for the amended C8 at concrete inputs: the full selection
`["a"]` over thread `a` is restored by two toggles; the partial
selection `["a"]` over threads `a`, `b` ends empty; the length-equal
but differently ordered selection `["b","a"]` over threads `a`, `b`
ends at the full id list `["a","b"]`. -/
theorem toggleSelectAll_pair_restores_witness :
    (handleToggleSelectAll (handleToggleSelectAll
        { initialAppState with threads := [⟨"a", false⟩], selectedIds := ["a"] })).selectedIds
      = ["a"] ∧
    (handleToggleSelectAll (handleToggleSelectAll partialSelectState)).selectedIds = [] ∧
    (handleToggleSelectAll (handleToggleSelectAll
        { initialAppState with
            threads := [⟨"a", false⟩, ⟨"b", false⟩]
            selectedIds := ["b", "a"] })).selectedIds = ["a", "b"] := by
  have h1 := (toggleSelectAll_pair_restores
    { initialAppState with threads := [⟨"a", false⟩], selectedIds := ["a"] }).1.mpr
    (Or.inr (Or.inl (by decide)))
  have h2 := (toggleSelectAll_pair_restores partialSelectState).2.1
    (by decide) (by decide)
  have h3 := (toggleSelectAll_pair_restores
    { initialAppState with
        threads := [⟨"a", false⟩, ⟨"b", false⟩]
        selectedIds := ["b", "a"] }).2.2 (by decide) (by decide)
  exact ⟨h1.trans (by decide), h2, h3.trans (by decide)⟩

/-- A session with one thread loaded, open and selected, about to be
refreshed. -/
def failureScenarioState : AppState :=
  { initialAppState with
      threads := [⟨"m1", false⟩]
      selectedThread := some ⟨"m1", false⟩
      selectedIds := ["m1"] }

/-- Counterexample to C9 as stated: when a (non-superseded) fetch
fails, the catch branch empties the thread list and sets the error but
never touches `selectedIds` — the previously selected id survives, so
the SelectionState is not fully cleared. -/
theorem fetchFailure_selection_not_cleared :
    (applyFetchResult (FetchResult.failure "boom") failureScenarioState).selectedIds
      ≠ [] := by decide

/-- C9 (amended): on a (non-superseded) fetch failure the thread
collection becomes empty, the thread-list error slot holds a non-empty
user-facing message (`err.message` or the fallback), the loading flag
clears and the open thread becomes null via the `[threads]` effect —
but `selectedIds` is left exactly as it was, not cleared. -/
theorem fetchFailure_state (msg : String) (s : AppState) :
    (applyFetchResult (FetchResult.failure msg) s).threads = [] ∧
    (applyFetchResult (FetchResult.failure msg) s).threadsError ≠ "" ∧
    (applyFetchResult (FetchResult.failure msg) s).selectedThread = none ∧
    (applyFetchResult (FetchResult.failure msg) s).selectedIds = s.selectedIds ∧
    (applyFetchResult (FetchResult.failure msg) s).threadsLoading = false := by
  refine ⟨rfl, ?_, rfl, rfl, rfl⟩
  have hproj : (applyFetchResult (FetchResult.failure msg) s).threadsError
      = if msg = "" then "Unable to load messages." else msg := rfl
  rw [hproj]
  split
  · decide
  · assumption

lemma allSelected_iff (s : AppState)
    (hsel : s.selectedIds.Nodup)
    (hids : (s.threads.map ThreadSummary.id).Nodup)
    (hsub : s.selectedIds ⊆ s.threads.map ThreadSummary.id) :
    allSelected s = true ↔
      (s.threads ≠ [] ∧ ∀ i ∈ s.threads.map ThreadSummary.id, i ∈ s.selectedIds) := by
  unfold allSelected
  simp only [Bool.and_eq_true, decide_eq_true_eq, beq_iff_eq]
  constructor
  · rintro ⟨hpos, hlen⟩
    have hsp : List.Subperm s.selectedIds (s.threads.map ThreadSummary.id) :=
      List.subperm_of_subset hsel hsub
    have hperm : List.Perm s.selectedIds (s.threads.map ThreadSummary.id) :=
      hsp.perm_of_length_le (by rw [List.length_map]; omega)
    exact ⟨List.length_pos.mp hpos, fun i hi => hperm.mem_iff.mpr hi⟩
  · rintro ⟨hne, hall⟩
    have hpos : 0 < s.threads.length := List.length_pos.mpr hne
    have h1 := (List.subperm_of_subset hsel hsub).length_le
    have h2 := (List.subperm_of_subset hids fun i hi => hall i hi).length_le
    rw [List.length_map] at h1 h2
    exact ⟨hpos, by omega⟩

/-- C10: `selectedIds` stays duplicate-free under every operation that
touches it — checking a thread (which is a no-op when the id is already
selected), unchecking (which removes every occurrence), select-all
(given the per-session uniqueness of thread ids), fetch completion and
bulk removal — and this invariant is exactly what makes the length
comparison `selectedIds.length === threads.length` a correct
all-selected test. -/
theorem selectedIds_duplicate_free (s : AppState) (threadId : String)
    (targets : List String) (r : FetchResult) :
    (s.selectedIds.Nodup → (handleThreadSelect threadId true s).selectedIds.Nodup) ∧
    (s.selectedIds.Nodup → (handleThreadSelect threadId false s).selectedIds.Nodup) ∧
    (s.selectedIds.contains threadId = true →
      (handleThreadSelect threadId true s).selectedIds = s.selectedIds) ∧
    (threadId ∉ (handleThreadSelect threadId false s).selectedIds) ∧
    (s.selectedIds.Nodup → (s.threads.map ThreadSummary.id).Nodup →
      (handleToggleSelectAll s).selectedIds.Nodup) ∧
    (s.selectedIds.Nodup → (applyFetchResult r s).selectedIds.Nodup) ∧
    (s.selectedIds.Nodup → (bulkRemoveCompleted targets s).selectedIds.Nodup) ∧
    (s.selectedIds.Nodup → (s.threads.map ThreadSummary.id).Nodup →
      s.selectedIds ⊆ s.threads.map ThreadSummary.id →
      (allSelected s = true ↔
        (s.threads ≠ [] ∧ ∀ i ∈ s.threads.map ThreadSummary.id, i ∈ s.selectedIds))) := by
  refine ⟨?_, ?_, ?_, ?_, ?_, ?_, ?_, allSelected_iff s⟩
  · intro h
    unfold handleThreadSelect
    by_cases hc : s.selectedIds.contains threadId
    · have hmem : threadId ∈ s.selectedIds := by simpa using hc
      simpa [hmem] using h
    · have hmem : threadId ∉ s.selectedIds := by simpa using hc
      simp [hmem, List.nodup_append, h]
  · intro h
    exact List.Nodup.filter _ h
  · intro hc
    unfold handleThreadSelect
    have hmem : threadId ∈ s.selectedIds := by simpa using hc
    simp [hmem]
  · show threadId ∉ s.selectedIds.filter (fun i => ¬ i = threadId)
    simp [List.mem_filter]
  · intro h hids
    unfold handleToggleSelectAll
    by_cases h0 : s.threads.length = 0
    · simpa [h0] using h
    · by_cases hA : allSelected s
      · simp [h0, hA]
      · simpa [h0, hA] using hids
  · intro h
    rcases r with ⟨msgs, nextTok, est⟩ | msg
    · exact List.nodup_nil
    · exact h
  · intro h
    unfold bulkRemoveCompleted
    split
    · exact h
    · exact List.Nodup.filter _ h

/-- Witness for C10 at concrete inputs: on the 2-thread collection with
selection `["a"]`, re-checking `"a"` leaves the selection unchanged,
unchecking `"b"` removes it, select-all yields a duplicate-free
selection, and the all-selected test is false exactly because `"b"` is
not selected. -/
theorem selectedIds_duplicate_free_witness :
    (handleThreadSelect "a" true
        { initialAppState with
            threads := [⟨"a", false⟩, ⟨"b", false⟩]
            selectedIds := ["a"] }).selectedIds = ["a"] ∧
    "b" ∉ (handleThreadSelect "b" false
        { initialAppState with
            threads := [⟨"a", false⟩, ⟨"b", false⟩]
            selectedIds := ["a"] }).selectedIds ∧
    (handleToggleSelectAll
        { initialAppState with
            threads := [⟨"a", false⟩, ⟨"b", false⟩]
            selectedIds := ["a"] }).selectedIds.Nodup := by
  have h := selectedIds_duplicate_free
    { initialAppState with
        threads := [⟨"a", false⟩, ⟨"b", false⟩]
        selectedIds := ["a"] }
    "a" [] (FetchResult.failure "")
  have h2 := selectedIds_duplicate_free
    { initialAppState with
        threads := [⟨"a", false⟩, ⟨"b", false⟩]
        selectedIds := ["a"] }
    "b" [] (FetchResult.failure "")
  exact ⟨(h.2.2.1 (by decide)).trans (by decide), h2.2.2.2.1,
    h.2.2.2.2.1 (by decide) (by decide)⟩

end EmailApp
